import Mathlib

/-!
Shallow embedding of the nessy NES emulator core (the `nesbus.rs` generation of
the source: `src/nesbus.rs`, `src/ppu.rs`, `src/mapper.rs`, `src/mapper/mapper2.rs`,
`src/util.rs`, and the ADC arithmetic of `src/cpu.rs`).

Conventions of the embedding:
* `u8`/`u16` machine words are `Nat`; every operation that can leave the range
  of the word applies the masking the Rust code itself performs (`% 256`,
  `% 0x4000`, `&&&` with the relevant mask).  Rust `!mask` (bitwise complement
  inside a word) is embedded as `width_ones ^^^ mask`.
* Fixed-size byte arrays (`[u8; 2048]`, `[u8; 256]`, `[u8; 32]`, `[Sprite; 8]`)
  are total functions `Nat → _`; the Rust code only ever indexes them after a
  bounds-establishing guard, which the embedded code keeps verbatim.
* Growable `Vec<u8>` cartridge memory is a `ByteVec` (an explicit size plus a
  contents function); indexing it is partial exactly as in Rust: `Vec` indexing
  panics when the index reaches the length, which the embedding models as
  `Option` via `ByteVec.get?`.
* Fallible steps return `Option`, `none` standing for a Rust panic.
-/

namespace Nessy

/-! ## src/util.rs -/

/-- Embedding of `get_flag_u8` (src/util.rs): `byte & (1 << flag) != 0`. -/
def get_flag_u8 (byte flag : Nat) : Bool := byte &&& (1 <<< flag) != 0

/-- Embedding of `set_flag_u8` (src/util.rs): `*byte &= !mask; *byte |= if value { mask } else { 0 }`
with the `u8` complement `!mask` written as `255 ^^^ mask`. -/
def set_flag_u8 (byte flag : Nat) (value : Bool) : Nat :=
  let mask := 1 <<< flag
  (byte &&& (255 ^^^ mask)) ||| (if value then mask else 0)

/-- Embedding of `get_flag_u16` (src/util.rs). -/
def get_flag_u16 (short flag : Nat) : Bool := short &&& (1 <<< flag) != 0

/-- Embedding of `set_flag_u16` (src/util.rs), with the `u16` complement
`!mask` written as `65535 ^^^ mask`. -/
def set_flag_u16 (short flag : Nat) (value : Bool) : Nat :=
  let mask := 1 <<< flag
  (short &&& (65535 ^^^ mask)) ||| (if value then mask else 0)

/-! ### Generic facts about the flag helpers -/

lemma get_flag_u8_eq_testBit (b f : Nat) : get_flag_u8 b f = b.testBit f := by
  unfold get_flag_u8
  rw [Nat.shiftLeft_eq, one_mul, Nat.and_two_pow]
  cases h : b.testBit f <;> simp [h, (Nat.two_pow_pos f).ne']

lemma get_flag_u16_eq_testBit (b f : Nat) : get_flag_u16 b f = b.testBit f :=
  get_flag_u8_eq_testBit b f

lemma testBit_set_flag_u16 (b f : Nat) (v : Bool) (g : Nat) (hg : g < 16) :
    (set_flag_u16 b f v).testBit g = if f = g then v else b.testBit g := by
  unfold set_flag_u16
  have h65535 : (65535 : Nat) = 2 ^ 16 - 1 := by norm_num
  rw [Nat.shiftLeft_eq, one_mul, Nat.testBit_or, Nat.testBit_and, Nat.testBit_xor, h65535,
    Nat.testBit_two_pow_sub_one]
  by_cases hfg : f = g
  · subst hfg
    cases v <;> simp [hg, Nat.testBit_two_pow_self]
  · cases v <;>
      simp [hg, hfg, Nat.testBit_two_pow_of_ne hfg, Nat.zero_testBit]

lemma testBit_set_flag_u8 (b f : Nat) (v : Bool) (g : Nat) (hg : g < 8) :
    (set_flag_u8 b f v).testBit g = if f = g then v else b.testBit g := by
  unfold set_flag_u8
  have h255 : (255 : Nat) = 2 ^ 8 - 1 := by norm_num
  rw [Nat.shiftLeft_eq, one_mul, Nat.testBit_or, Nat.testBit_and, Nat.testBit_xor, h255,
    Nat.testBit_two_pow_sub_one]
  by_cases hfg : f = g
  · subst hfg
    cases v <;> simp [hg, Nat.testBit_two_pow_self]
  · cases v <;>
      simp [hg, hfg, Nat.testBit_two_pow_of_ne hfg, Nat.zero_testBit]

lemma get_set_flag_u16_same (b f : Nat) (v : Bool) (hf : f < 16) :
    get_flag_u16 (set_flag_u16 b f v) f = v := by
  rw [get_flag_u16_eq_testBit, testBit_set_flag_u16 b f v f hf, if_pos rfl]

lemma get_set_flag_u16_other (b f g : Nat) (v : Bool) (hg : g < 16) (hfg : f ≠ g) :
    get_flag_u16 (set_flag_u16 b f v) g = get_flag_u16 b g := by
  rw [get_flag_u16_eq_testBit, testBit_set_flag_u16 b f v g hg, if_neg hfg,
    get_flag_u16_eq_testBit]

lemma get_set_flag_u8_same (b f : Nat) (v : Bool) (hf : f < 8) :
    get_flag_u8 (set_flag_u8 b f v) f = v := by
  rw [get_flag_u8_eq_testBit, testBit_set_flag_u8 b f v f hf, if_pos rfl]

lemma get_set_flag_u8_other (b f g : Nat) (v : Bool) (hg : g < 8) (hfg : f ≠ g) :
    get_flag_u8 (set_flag_u8 b f v) g = get_flag_u8 b g := by
  rw [get_flag_u8_eq_testBit, testBit_set_flag_u8 b f v g hg, if_neg hfg,
    get_flag_u8_eq_testBit]

/-! ## Bus records (src/nesbus.rs `CpuBus`, src/ppu.rs `PpuBus`, src/mapper.rs `MapperBus`) -/

/-- Embedding of `CpuBus` (src/nesbus.rs): address/data lines plus packed flags.
Flag bit positions follow the source constants: RST=0, NMI=1, IRQ=2, READ=3,
SYNC=4, NOT_READY=5, HALT=6. -/
structure CpuBus where
  address : Nat
  data : Nat
  flags : Nat

namespace CpuBus

def read (b : CpuBus) : Bool := get_flag_u8 b.flags 3
def nmi (b : CpuBus) : Bool := get_flag_u8 b.flags 1
def setData (b : CpuBus) (d : Nat) : CpuBus := { b with data := d }
def setNmi (b : CpuBus) (v : Bool) : CpuBus := { b with flags := set_flag_u8 b.flags 1 v }

end CpuBus

/-- Embedding of `PpuBus` (src/ppu.rs).  Flag bits: READ_ENABLE=0, WRITE_ENABLE=1, NMI=2. -/
structure PpuBus where
  address : Nat
  data : Nat
  flags : Nat

namespace PpuBus

def init : PpuBus := { address := 0, data := 0, flags := 0 }
def read_enable (b : PpuBus) : Bool := get_flag_u8 b.flags 0
def write_enable (b : PpuBus) : Bool := get_flag_u8 b.flags 1
def setData (b : PpuBus) (d : Nat) : PpuBus := { b with data := d }
def set_read_enable (b : PpuBus) (v : Bool) : PpuBus :=
  { b with flags := set_flag_u8 b.flags 0 v }
def set_write_enable (b : PpuBus) (v : Bool) : PpuBus :=
  { b with flags := set_flag_u8 b.flags 1 v }

end PpuBus

/-- Embedding of `MapperBus` (src/mapper.rs).  Flag bits: VRAM_ENABLE=0, VRAM_A10=1, IRQ=2. -/
structure MapperBus where
  flags : Nat

namespace MapperBus

def vram_enable (b : MapperBus) : Bool := get_flag_u8 b.flags 0
def vram_a10 (b : MapperBus) : Bool := get_flag_u8 b.flags 1
def set_vram_enable (b : MapperBus) (v : Bool) : MapperBus :=
  { b with flags := set_flag_u8 b.flags 0 v }
def set_vram_a10 (b : MapperBus) (v : Bool) : MapperBus :=
  { b with flags := set_flag_u8 b.flags 1 v }

end MapperBus

/-! ## PPU register packings (src/ppu.rs `Meta`, `Control`, `Mask`, `V`) -/

/-! Flag and field helpers for the packed `Meta(u16)` word (src/ppu.rs).
Bit positions follow the source constants: X=0 (3 bits), W=3, ODD_FRAME=4,
SPRITE_OVERFLOW=5, SPRITE_ZERO_HIT=6, VBLANK=7, READ_PENDING=8,
WRITE_PENDING=9, DATA_LATCH_UPDATE_PENDING=10. -/
namespace Meta

def x (m : Nat) : Nat := (m >>> 0) % 256 &&& 0b111

def set_x (m xv : Nat) : Nat :=
  let xv := xv % 256 &&& 0b111
  let mask := 0b111 <<< 0
  ((m &&& (65535 ^^^ mask))) ||| (xv <<< 0)

def w (m : Nat) : Bool := get_flag_u16 m 3
def set_w (m : Nat) (v : Bool) : Nat := set_flag_u16 m 3 v
def odd_frame (m : Nat) : Bool := get_flag_u16 m 4
def set_odd_frame (m : Nat) (v : Bool) : Nat := set_flag_u16 m 4 v
def sprite_overflow (m : Nat) : Bool := get_flag_u16 m 5
def set_sprite_overflow (m : Nat) (v : Bool) : Nat := set_flag_u16 m 5 v
def set_sprite_zero_hit (m : Nat) (v : Bool) : Nat := set_flag_u16 m 6 v
def vblank (m : Nat) : Bool := get_flag_u16 m 7
def set_vblank (m : Nat) (v : Bool) : Nat := set_flag_u16 m 7 v
def read_pending (m : Nat) : Bool := get_flag_u16 m 8
def set_read_pending (m : Nat) (v : Bool) : Nat := set_flag_u16 m 8 v
def write_pending (m : Nat) : Bool := get_flag_u16 m 9
def set_write_pending (m : Nat) (v : Bool) : Nat := set_flag_u16 m 9 v
def data_latch_update_pending (m : Nat) : Bool := get_flag_u16 m 10
def set_data_latch_update_pending (m : Nat) (v : Bool) : Nat := set_flag_u16 m 10 v

/-- Embedding of `Meta::status_bits`: `self.0 as u8 & (0b111 << 5)`. -/
def status_bits (m : Nat) : Nat := (m % 256) &&& (0b111 <<< 5)

end Meta

/-! Flag helpers for the `Control(u8)` register (src/ppu.rs).  Bits:
INCREMENT=2, SPRITE_TABLE=3, BACKGROUND_TABLE=4, NMI_ENABLE=7. -/
namespace Control

def increment (c : Nat) : Bool := get_flag_u8 c 2
def sprite_table (c : Nat) : Bool := get_flag_u8 c 3
def background_table (c : Nat) : Bool := get_flag_u8 c 4
def nmi_enable (c : Nat) : Bool := get_flag_u8 c 7

/-- Embedding of `Control::inc_amount`. -/
def inc_amount (c : Nat) : Nat := if increment c then 32 else 1

end Control

/-! Flag helpers for the `Mask(u8)` register (src/ppu.rs).  Bits:
LEFT_BACKGROUND=1, LEFT_SPRITES=2, BACKGROUND=3, SPRITES=4. -/
namespace Mask

def background (m : Nat) : Bool := get_flag_u8 m 3
def sprites (m : Nat) : Bool := get_flag_u8 m 4
def left_background (m : Nat) : Bool := get_flag_u8 m 1
def left_sprites (m : Nat) : Bool := get_flag_u8 m 2

/-- Embedding of `Mask::render_enabled`. -/
def render_enabled (m : Nat) : Bool := background m || sprites m

end Mask

/-! Field helpers for the packed scroll register `V(u16)` (src/ppu.rs).
Field offsets follow the source constants: COARSE_X=0, COARSE_Y=5,
NAMETABLE=10, FINE_Y=12. -/
namespace V

def coarse_x (v : Nat) : Nat := (v >>> 0) % 256 &&& 0b11111
def coarse_y (v : Nat) : Nat := (v >>> 5) % 256 &&& 0b11111
def fine_y (v : Nat) : Nat := (v >>> 12) % 256 &&& 0b111

def set_coarse_x (v cx : Nat) : Nat :=
  let cx := (cx % 256) <<< 0
  let mask := 0b11111 <<< 0
  (v &&& (65535 ^^^ mask)) ||| (cx &&& mask)

def set_coarse_y (v cy : Nat) : Nat :=
  let cy := (cy % 256) <<< 5
  let mask := 0b11111 <<< 5
  (v &&& (65535 ^^^ mask)) ||| (cy &&& mask)

def set_nametable (v nt : Nat) : Nat :=
  let nt := (nt % 256) <<< 10
  let mask := 0b11 <<< 10
  (v &&& (65535 ^^^ mask)) ||| (nt &&& mask)

def set_fine_y (v fy : Nat) : Nat :=
  let fy := (fy % 256) <<< 12
  let mask := 0b111 <<< 12
  (v &&& (65535 ^^^ mask)) ||| (fy &&& mask)

end V

/-! ## PPU state and operations (src/ppu.rs) -/

/-- Embedding of the secondary-OAM `Sprite` record (src/ppu.rs). -/
structure Sprite where
  present : Bool
  x : Nat
  sprite_zero : Bool
  priority : Bool
  tile : Nat
  y_offset : Nat
  hor_flip : Bool
  pattern : Nat × Nat
  palette : Nat

/-- Embedding of `Sprite::default` (src/ppu.rs). -/
def Sprite.default : Sprite :=
  { present := false, x := 0, sprite_zero := false, priority := false,
    tile := 0xFF, y_offset := 0, hor_flip := false, pattern := (0, 0), palette := 0 }

/-- Embedding of the `Ppu` state (src/ppu.rs).  `dot` is the `[u16; 2]` pair
`(dot[0], dot[1])`.  The background `Shifters` and the `PixelBuffer` are not
referenced by any of the embedded operations (register interface, sprite
evaluation, vblank/dot bookkeeping) and are omitted from the record. -/
structure Ppu where
  meta : Nat
  control : Nat
  mask : Nat
  v : Nat
  t : Nat
  dot : Nat × Nat
  data_latch : Nat
  oam_addr : Nat
  oam : Nat → Nat
  palette : Nat → Nat
  sprites : Nat → Sprite
  fetch_index : Nat
  eval_index : Nat

/-- `DOTS` constant (src/ppu.rs). -/
def DOTS : Nat := 341
/-- `LINES` constant (src/ppu.rs). -/
def LINES : Nat := 262

/-- Embedding of `is_palette_address` (src/ppu.rs): `(0x3F00..0x4000).contains(&addr)`. -/
def is_palette_address (addr : Nat) : Bool :=
  decide (0x3F00 ≤ addr) && decide (addr < 0x4000)

/-- Embedding of `normalize_palette_address` (src/ppu.rs). -/
def normalize_palette_address (addr : Nat) : Nat :=
  let a := addr % 0x20
  if a = 0x10 then 0x00
  else if a = 0x14 then 0x04
  else if a = 0x18 then 0x08
  else if a = 0x1C then 0x0C
  else a

namespace Ppu

/-- Embedding of `Ppu::init` (src/ppu.rs). -/
def init : Ppu :=
  { meta := 0, control := 0, mask := 0, v := 0, t := 0, dot := (0, 0),
    data_latch := 0, oam_addr := 0, oam := fun _ => 0, palette := fun _ => 0,
    sprites := fun _ => Sprite.default, fetch_index := 0, eval_index := 0 }

/-- Embedding of `Ppu::read` (src/ppu.rs): flag a pending read and drive the address. -/
def read (p : Ppu) (addr : Nat) (bus : PpuBus) : Ppu × PpuBus :=
  ({ p with meta := Meta.set_read_pending p.meta true }, { bus with address := addr })

/-- Embedding of `Ppu::write` (src/ppu.rs): flag a pending write and drive address and data. -/
def write (p : Ppu) (addr val : Nat) (bus : PpuBus) : Ppu × PpuBus :=
  ({ p with meta := Meta.set_write_pending p.meta true },
   { bus with address := addr, data := val })

/-- Embedding of `Ppu::increment_v` (src/ppu.rs): `v += inc_amount; v %= 0x4000`.
The wrap of the `u16` addition is absorbed: `(a % 65536) % 0x4000 = a % 0x4000`
since `0x4000` divides `65536`. -/
def increment_v (p : Ppu) : Ppu :=
  { p with v := (p.v + Control.inc_amount p.control) % 0x4000 }

/-- Embedding of `Ppu::update_data_latch` (src/ppu.rs). -/
def update_data_latch (p : Ppu) (bus : PpuBus) : Ppu :=
  if ¬ Meta.data_latch_update_pending p.meta then p
  else if Meta.read_pending p.meta then p
  else { p with data_latch := bus.data,
                meta := Meta.set_data_latch_update_pending p.meta false }

/-- Embedding of `Ppu::perform_memop` (src/ppu.rs): drive the enable lines from
the pending flags, then clear the pending flags. -/
def perform_memop (p : Ppu) (bus : PpuBus) : Ppu × PpuBus :=
  let bus := bus.set_read_enable (Meta.read_pending p.meta)
  let bus := bus.set_write_enable (Meta.write_pending p.meta)
  ({ p with meta := Meta.set_write_pending (Meta.set_read_pending p.meta false) false }, bus)

/-- Embedding of `Ppu::decide_vblank` (src/ppu.rs). -/
def decide_vblank (p : Ppu) (cpu : CpuBus) : Ppu × CpuBus :=
  let start : Nat × Nat := (1, 241)
  let endDot : Nat × Nat := (1, 261)
  let p :=
    if p.dot = start then
      { p with meta := Meta.set_vblank p.meta true }
    else if p.dot = endDot then
      let m := Meta.set_vblank p.meta false
      let m := Meta.set_sprite_zero_hit m false
      let m := Meta.set_sprite_overflow m false
      { p with meta := m }
    else p
  (p, cpu.setNmi (Meta.vblank p.meta && Control.nmi_enable p.control))

/-- Embedding of `Ppu::tick_counter` (src/ppu.rs). -/
def tick_counter (p : Ppu) : Ppu :=
  let last : Nat × Nat :=
    if Meta.odd_frame p.meta then (DOTS - 2, LINES - 1) else (DOTS - 1, LINES - 1)
  if p.dot = last then
    { p with dot := (0, 0), meta := Meta.set_odd_frame p.meta (!Meta.odd_frame p.meta) }
  else
    let d0 := p.dot.1 + 1
    if d0 = DOTS then { p with dot := (0, p.dot.2 + 1) }
    else { p with dot := (d0, p.dot.2) }

/-- Embedding of `Ppu::evaluate_sprite` (src/ppu.rs).  `sprite` is the OAM byte
offset of the entry (a multiple of 4). -/
def evaluate_sprite (p : Ppu) (sprite : Nat) : Ppu :=
  if 8 ≤ p.eval_index then
    { p with meta := Meta.set_sprite_overflow p.meta true }
  else
    let y := p.oam sprite
    let line := p.dot.2
    if ¬ (y ≤ line ∧ line < y + 8) then p
    else
      let x := p.oam (sprite + 3)
      let tile := p.oam (sprite + 1)
      let flags := p.oam (sprite + 2)
      let palette := flags &&& 0b11
      let priority := flags &&& (1 <<< 5) == 0
      let hor_flip := flags &&& (1 <<< 6) != 0
      let ver_flip := flags &&& (1 <<< 7) != 0
      let y_offset := line - y
      let y_offset := if ver_flip then 7 - y_offset else y_offset
      { p with
        sprites := Function.update p.sprites p.eval_index
          { present := true, x := x, sprite_zero := sprite == 0, priority := priority,
            tile := tile, y_offset := y_offset, hor_flip := hor_flip,
            pattern := (0, 0), palette := palette },
        eval_index := p.eval_index + 1 }

/-- Iteration of `evaluate_sprite` over the first `n` OAM entries, in ascending
order; `eval_loop p 64` is the `for i in (0..256).step_by(4)` loop of
`Ppu::evaluate_sprites`. -/
def eval_loop (p : Ppu) : Nat → Ppu
  | 0 => p
  | n + 1 => (eval_loop p n).evaluate_sprite (4 * n)

/-- Embedding of the trailing `while self.sprites.eval_index < 8` loop of
`Ppu::evaluate_sprites`, written with explicit fuel.  Fuel 8 is exact: the loop
runs `8 - eval_index` times and `eval_index` never exceeds 8. -/
def fill_loop : Nat → Ppu → Ppu
  | 0, p => p
  | fuel + 1, p =>
    if p.eval_index < 8 then
      fill_loop fuel
        { p with sprites := Function.update p.sprites p.eval_index Sprite.default,
                 eval_index := p.eval_index + 1 }
    else p

/-- Embedding of `Ppu::evaluate_sprites` (src/ppu.rs). -/
def evaluate_sprites (p : Ppu) : Ppu :=
  fill_loop 8 (eval_loop { p with eval_index := 0, fetch_index := 0 } 64)

/-- Embedding of `Ppu::handle_cpu` (src/ppu.rs), the `$2000-$3FFF` register
interface.  The source `match addr` on `cpu.address() % 8` is written as an
`if`-chain over the same scrutinee; the final branch is the unreachable
`8.. => unreachable!()` arm. -/
def handle_cpu (p : Ppu) (bus : PpuBus) (cpu : CpuBus) : Ppu × PpuBus × CpuBus :=
  if ¬ (0x2000 ≤ cpu.address ∧ cpu.address < 0x4000) then (p, bus, cpu)
  else
    let addr := cpu.address % 8
    let data := cpu.data
    if addr = 0 then
      if cpu.read then (p, bus, cpu)
      else
        let nametable := data &&& 0b11
        ({ p with t := V.set_nametable p.t nametable, control := data }, bus, cpu)
    else if addr = 1 then
      if cpu.read then (p, bus, cpu)
      else ({ p with mask := data }, bus, cpu)
    else if addr = 2 then
      if ¬ cpu.read then (p, bus, cpu)
      else
        let cpu := cpu.setData (Meta.status_bits p.meta)
        ({ p with meta := Meta.set_vblank (Meta.set_w p.meta false) false }, bus, cpu)
    else if addr = 3 then
      if cpu.read then (p, bus, cpu)
      else ({ p with oam_addr := data }, bus, cpu)
    else if addr = 4 then
      if cpu.read then (p, bus, cpu.setData (p.oam p.oam_addr))
      else
        ({ p with oam := Function.update p.oam p.oam_addr data,
                  oam_addr := (p.oam_addr + 1) % 256 }, bus, cpu)
    else if addr = 5 then
      if cpu.read then (p, bus, cpu)
      else if ¬ Meta.w p.meta then
        ({ p with meta := Meta.set_w (Meta.set_x p.meta (data &&& 0b111)) true,
                  t := V.set_coarse_x p.t (data >>> 3) }, bus, cpu)
      else
        ({ p with t := V.set_coarse_y (V.set_fine_y p.t (data &&& 0b111)) (data >>> 3),
                  meta := Meta.set_w p.meta false }, bus, cpu)
    else if addr = 6 then
      if cpu.read then (p, bus, cpu)
      else if ¬ Meta.w p.meta then
        let d := data &&& 0b111111
        ({ p with t := (p.t &&& 0xFF) ||| (d <<< 8),
                  meta := Meta.set_w p.meta true }, bus, cpu)
      else
        let t := (p.t &&& 0xFF00) ||| data
        ({ p with t := t, v := t, meta := Meta.set_w p.meta false }, bus, cpu)
    else if addr = 7 then
      let v := p.v
      let pal := is_palette_address v
      let palette_index := normalize_palette_address v
      if cpu.read then
        let pb := p.read v bus
        let p := { pb.1 with meta := Meta.set_data_latch_update_pending pb.1.meta true }
        let cpu := if pal then cpu.setData (p.palette palette_index)
                   else cpu.setData p.data_latch
        (p.increment_v, pb.2, cpu)
      else
        let pb :=
          if pal then
            ({ p with palette := Function.update p.palette palette_index data }, bus)
          else p.write v data bus
        (pb.1.increment_v, pb.2, cpu)
    else (p, bus, cpu)

end Ppu

/-! ## Cartridge memory and mapper 2 (src/mapper/mapper2.rs) -/

/-- Model of a Rust `Vec<u8>`: an explicit length together with a contents
function.  Only indices below `size` are meaningful. -/
structure ByteVec where
  size : Nat
  byteAt : Nat → Nat

/-- Indexing of a `Vec<u8>`: in bounds yields the byte, out of bounds is the
Rust index panic, modelled as `none`. -/
def ByteVec.get? (v : ByteVec) (i : Nat) : Option Nat :=
  if i < v.size then some (v.byteAt i) else none

/-- Point update of a `Vec<u8>` slot (`self.chr[i] = d`); the caller's bounds
obligation is handled at the call site. -/
def ByteVec.setByte (v : ByteVec) (i d : Nat) : ByteVec :=
  { v with byteAt := Function.update v.byteAt i d }

/-- Embedding of the `Mapper2` state (src/mapper/mapper2.rs). -/
structure Mapper2 where
  prg : ByteVec
  chr : ByteVec
  banks : Nat
  bank : Nat
  vertical_mirror : Bool
  bank_conflicts : Bool

namespace Mapper2

/-- Embedding of `Mapper2::prg_rom_address` (src/mapper/mapper2.rs).  Note the
strict `addr > 0xC000` of the source.  `self.banks - 1` is `u8` arithmetic,
embedded as the wrapping subtraction `(banks + 255) % 256`. -/
def prg_rom_address (m : Mapper2) (addr : Nat) : Nat :=
  let high := decide (0xC000 < addr)
  let offset := addr % 16384
  let bank := if high then (m.banks + 255) % 256 else m.bank
  let bank_start := bank * 16384
  bank_start ||| offset

/-- Embedding of `Mapper2::handle_cpu` (src/mapper/mapper2.rs).  The `Vec`
index into PRG ROM is fallible: `none` is the Rust panic. -/
def handle_cpu (m : Mapper2) (cpu : CpuBus) : Option (Mapper2 × CpuBus) :=
  if cpu.address < 0x8000 then some (m, cpu)
  else if cpu.read then
    match m.prg.get? (m.prg_rom_address cpu.address) with
    | some d => some (m, cpu.setData d)
    | none => none
  else
    if m.bank_conflicts then
      match m.prg.get? (m.prg_rom_address cpu.address) with
      | some rom_data => some ({ m with bank := rom_data &&& cpu.data }, cpu)
      | none => none
    else some ({ m with bank := cpu.data }, cpu)

/-- Embedding of `Mapper2::handle_ppu` (src/mapper/mapper2.rs): CHR RAM
service below `$2000`, then the mirroring lines.  CHR indexing is fallible
exactly where the Rust indexing is. -/
def handle_ppu (m : Mapper2) (bus : MapperBus) (ppu : PpuBus) :
    Option (Mapper2 × MapperBus × PpuBus) :=
  let chrStep : Option (Mapper2 × PpuBus) :=
    if ppu.address < 0x2000 then
      let afterRead : Option PpuBus :=
        if ppu.read_enable then
          match m.chr.get? ppu.address with
          | some d => some (ppu.setData d)
          | none => none
        else some ppu
      match afterRead with
      | none => none
      | some ppu =>
        if ppu.write_enable then
          if ppu.address < m.chr.size then
            some ({ m with chr := m.chr.setByte ppu.address ppu.data }, ppu)
          else none
        else some (m, ppu)
    else some (m, ppu)
  match chrStep with
  | none => none
  | some (m, ppu) =>
    let a10 := (ppu.address >>> 10) &&& 1 != 0
    let a11 := (ppu.address >>> 11) &&& 1 != 0
    let bus := bus.set_vram_a10 (if m.vertical_mirror then a10 else a11)
    let enable := decide (0x2000 ≤ ppu.address) && decide (ppu.address < 0x3000)
    let bus := bus.set_vram_enable enable
    some (m, bus, ppu)

end Mapper2

/-! ## NesBus memory fanout (src/nesbus.rs) -/

/-- Embedding of `NesBus::update_ram` (src/nesbus.rs): the 2 KiB internal RAM
services the CPU bus only when `addr < 2048`. -/
def update_ram (ram : Nat → Nat) (cpu : CpuBus) : (Nat → Nat) × CpuBus :=
  let addr := cpu.address
  if addr < 2048 then
    if cpu.read then (ram, cpu.setData (ram addr))
    else (Function.update ram addr cpu.data, cpu)
  else (ram, cpu)

/-- Embedding of `NesBus::update_vram` (src/nesbus.rs).  `!mask` is the `u16`
complement of `1 << 10`. -/
def update_vram (vram : Nat → Nat) (mbus : MapperBus) (ppu : PpuBus) :
    (Nat → Nat) × PpuBus :=
  if ¬ mbus.vram_enable then (vram, ppu)
  else
    let mask := 1 <<< 10
    let addr := ((ppu.address % 0x800) &&& (65535 ^^^ mask)) |||
      (if mbus.vram_a10 then mask else 0)
    let step := if ppu.read_enable then (vram, ppu.setData (vram addr)) else (vram, ppu)
    let vram := step.1
    let ppu := step.2
    let vram := if ppu.write_enable then Function.update vram addr ppu.data else vram
    (vram, ppu)

/-! ## CPU ADC (src/cpu.rs `Cpu::exec_adc`) -/

/-- Embedding of the 6502 status flags record (src/cpu.rs `Flags`). -/
structure Flags where
  carry : Bool
  zero : Bool
  irq_disable : Bool
  decimal : Bool
  overflow : Bool
  negative : Bool

/-- Embedding of `SignCast::sign_cast` for `u8` (src/cpu.rs): reinterpret the
byte as a two's-complement `i8`. -/
def sign_cast_u8 (x : Nat) : Int :=
  if x < 128 then (x : Int) else (x : Int) - 256

/-- Embedding of the register/flag effect of `Cpu::exec_adc` (src/cpu.rs).
`a` is the accumulator, `b` the byte on the data bus.  `u8::carrying_add`
yields the mod-256 sum and the unsigned carry-out; `i8::carrying_add` reports
whether the exact signed sum leaves `[-128, 127]`.  `set_regular_flags` sets
`zero := value == 0` and `negative := value > 127`.  The trailing instruction
fetch of the source touches only the bus and is omitted. -/
def exec_adc (a : Nat) (flags : Flags) (b : Nat) : Nat × Flags :=
  let cn := if flags.carry then 1 else 0
  let sum := a + b + cn
  let r := sum % 256
  let carry := decide (256 ≤ sum)
  let signedSum := sign_cast_u8 a + sign_cast_u8 b + (cn : Int)
  let overflow := decide (signedSum < -128 ∨ 127 < signedSum)
  (r, { flags with carry := carry, overflow := overflow,
                   zero := decide (r = 0), negative := decide (127 < r) })

/-- Embedding of `Flags::init` (src/cpu.rs). -/
def Flags.init : Flags :=
  { carry := false, overflow := false, zero := false, negative := false,
    decimal := false, irq_disable := true }

/-! ## Specialized register-bit lemmas -/

lemma vblank_set_vblank (m : Nat) (v : Bool) : Meta.vblank (Meta.set_vblank m v) = v :=
  get_set_flag_u16_same m 7 v (by norm_num)

lemma vblank_set_sprite_zero_hit (m : Nat) (v : Bool) :
    Meta.vblank (Meta.set_sprite_zero_hit m v) = Meta.vblank m :=
  get_set_flag_u16_other m 6 7 v (by norm_num) (by norm_num)

lemma vblank_set_sprite_overflow (m : Nat) (v : Bool) :
    Meta.vblank (Meta.set_sprite_overflow m v) = Meta.vblank m :=
  get_set_flag_u16_other m 5 7 v (by norm_num) (by norm_num)

lemma sprite_overflow_set_sprite_overflow (m : Nat) (v : Bool) :
    Meta.sprite_overflow (Meta.set_sprite_overflow m v) = v :=
  get_set_flag_u16_same m 5 v (by norm_num)

lemma w_set_w (m : Nat) (v : Bool) : Meta.w (Meta.set_w m v) = v :=
  get_set_flag_u16_same m 3 v (by norm_num)

lemma read_pending_set_read_pending (m : Nat) (v : Bool) :
    Meta.read_pending (Meta.set_read_pending m v) = v :=
  get_set_flag_u16_same m 8 v (by norm_num)

lemma read_pending_set_dlup (m : Nat) (v : Bool) :
    Meta.read_pending (Meta.set_data_latch_update_pending m v) = Meta.read_pending m :=
  get_set_flag_u16_other m 10 8 v (by norm_num) (by norm_num)

lemma write_pending_set_read_pending (m : Nat) (v : Bool) :
    Meta.write_pending (Meta.set_read_pending m v) = Meta.write_pending m :=
  get_set_flag_u16_other m 8 9 v (by norm_num) (by norm_num)

lemma write_pending_set_dlup (m : Nat) (v : Bool) :
    Meta.write_pending (Meta.set_data_latch_update_pending m v) = Meta.write_pending m :=
  get_set_flag_u16_other m 10 9 v (by norm_num) (by norm_num)

lemma dlup_set_dlup (m : Nat) (v : Bool) :
    Meta.data_latch_update_pending (Meta.set_data_latch_update_pending m v) = v :=
  get_set_flag_u16_same m 10 v (by norm_num)

lemma dlup_set_read_pending (m : Nat) (v : Bool) :
    Meta.data_latch_update_pending (Meta.set_read_pending m v) =
      Meta.data_latch_update_pending m :=
  get_set_flag_u16_other m 8 10 v (by norm_num) (by norm_num)

lemma w_set_set_w (m : Nat) (u v : Bool) : Meta.w (Meta.set_w (Meta.set_w m u) v) = v :=
  w_set_w _ v

lemma nmi_setNmi (c : CpuBus) (v : Bool) : (c.setNmi v).nmi = v :=
  get_set_flag_u8_same c.flags 1 v (by norm_num)

lemma read_enable_set_read_enable (b : PpuBus) (v : Bool) :
    (b.set_read_enable v).read_enable = v :=
  get_set_flag_u8_same b.flags 0 v (by norm_num)

lemma read_enable_set_write_enable (b : PpuBus) (v : Bool) :
    (b.set_write_enable v).read_enable = b.read_enable :=
  get_set_flag_u8_other b.flags 1 0 v (by norm_num) (by norm_num)

lemma write_enable_set_write_enable (b : PpuBus) (v : Bool) :
    (b.set_write_enable v).write_enable = v :=
  get_set_flag_u8_same b.flags 1 v (by norm_num)

/-! ## Demonstration states -/

/-- CPU bus record for a write cycle (READ flag low), as the 6502 core drives
it in `NesBus::write` (src/nesbus.rs). -/
def cpu_write_bus (addr d : Nat) : CpuBus := { address := addr, data := d, flags := 0 }

/-- CPU bus record for a read cycle (READ flag high, bit 3), as the 6502 core
drives it in `NesBus::read` (src/nesbus.rs); the data line still carries 0. -/
def cpu_read_bus (addr : Nat) : CpuBus := { address := addr, data := 0, flags := 8 }

/-- Mapper 2 demonstration cartridge: 32 KiB PRG ROM (two 16 KiB banks; every
byte of the low bank is `0xAA`, every byte of the high bank `0x55`), 8 KiB CHR
RAM, no bus conflicts, exactly as `Mapper2::new` builds it from such a ROM. -/
def m2demo : Mapper2 :=
  { prg := { size := 32768, byteAt := fun i => if i < 16384 then 0xAA else 0x55 },
    chr := { size := 8192, byteAt := fun _ => 0 },
    banks := 2, bank := 0, vertical_mirror := false, bank_conflicts := false }

/-! ## Claim C1 -/

/-- C1: the spec claims that once `NesBus::new` has returned, no step can fail
and in particular every Mapper2 PRG index stays within the PRG ROM vector for
any byte value of the bank register.  This is false: from the freshly
constructed two-bank mapper, a single CPU write of `0xFF` to `$8000` (a
reachable bus transaction) loads 255 into the bank register, and the very next
CPU read of `$8000` computes PRG index `255 * 16384 = 4177920`, far beyond the
32768-byte PRG vector, so the Rust `Vec` index panics (`none`). -/
theorem C1_bank_write_then_read_panics :
    Mapper2.handle_cpu m2demo (cpu_write_bus 0x8000 0xFF)
      = some ({ m2demo with bank := 0xFF }, cpu_write_bus 0x8000 0xFF)
    ∧ Mapper2.prg_rom_address { m2demo with bank := 0xFF } 0x8000 = 255 * 16384
    ∧ m2demo.prg.size = 32768
    ∧ Mapper2.handle_cpu { m2demo with bank := 0xFF } (cpu_read_bus 0x8000) = none :=
  ⟨rfl, rfl, rfl, rfl⟩

/-! ## Claim C2 -/

/-- Internal RAM demonstration content: cell 0 holds `0x42`, all others 0. -/
def ram_demo : Nat → Nat := fun i => if i = 0 then 0x42 else 0

/-- C2: the spec claims the 2 KiB internal RAM is mirrored across the whole
region `$0000..$2000`.  This is false in `NesBus::update_ram`: the RAM only
services `addr < 2048`.  A read cycle at `$0800` (whose mirror target
`$0800 % $800 = 0` holds `0x42`) leaves the bus data line untouched at 0, and
a write cycle at `$0800` is dropped, while the same accesses at `$0000` do hit
the RAM cell. -/
theorem C2_ram_mirror_fails_at_0800 :
    (update_ram ram_demo (cpu_read_bus 0x800)).2.data = 0
    ∧ ram_demo (0x800 % 0x800) = 0x42
    ∧ (update_ram ram_demo (cpu_read_bus 0x800)).1 = ram_demo
    ∧ (update_ram ram_demo (cpu_write_bus 0x800 0x99)).1 = ram_demo
    ∧ (update_ram ram_demo (cpu_read_bus 0x000)).2.data = 0x42 :=
  ⟨rfl, rfl, rfl, rfl, rfl⟩

/-! ## Claim C3 -/

/-- C3: the vblank status bit is set exactly when the dot counter is at
(dot=1, line=241) and cleared by the dot logic exactly at (dot=1, line=261),
and on every cycle the NMI line on the CPU bus is driven to
`vblank && ctrl.nmi_enable`, the vblank value being the freshly updated one,
so NMI rises on the very cycle the bit is set iff NMI is enabled. -/
theorem C3_vblank_timing (p : Ppu) (cpu : CpuBus) :
    Meta.vblank (Ppu.decide_vblank p cpu).1.meta
      = (if p.dot = (1, 241) then true
         else if p.dot = (1, 261) then false
         else Meta.vblank p.meta)
    ∧ (Ppu.decide_vblank p cpu).2.nmi
      = (Meta.vblank (Ppu.decide_vblank p cpu).1.meta && Control.nmi_enable p.control)
    ∧ (Ppu.decide_vblank p cpu).1.dot = p.dot := by
  unfold Ppu.decide_vblank
  by_cases h1 : p.dot = (1, 241)
  · simp [h1, vblank_set_vblank, nmi_setNmi]
  · by_cases h2 : p.dot = (1, 261)
    · simp [h1, h2, vblank_set_vblank, vblank_set_sprite_zero_hit,
        vblank_set_sprite_overflow, nmi_setNmi]
    · simp [h1, h2, nmi_setNmi]

/-! ## Claim C4 -/

/-- Linear index of a dot-counter pair within a frame: `line * 341 + dot`. -/
def dot_index (d : Nat × Nat) : Nat := d.2 * 341 + d.1

/-- PPU state for the C4 counterexample: rendering fully disabled (`mask = 0`),
odd-frame toggle set, dot counter at (339, 261). -/
def ppu_c4 : Ppu := { Ppu.init with meta := Meta.set_odd_frame 0 true, dot := (339, 261) }

/-- C4 counterexample: the claim says that with rendering disabled every frame
is 89342 dots (no dot skipped).  But `Ppu::tick_counter` never consults the
mask: at (339, 261) on an odd frame with rendering disabled it wraps straight
to (0, 0), skipping dot (340, 261), yielding an 89341-dot frame. -/
theorem C4_skip_happens_with_rendering_disabled :
    Mask.render_enabled ppu_c4.mask = false
    ∧ Meta.odd_frame ppu_c4.meta = true
    ∧ ppu_c4.dot = (339, 261)
    ∧ (Ppu.tick_counter ppu_c4).dot = (0, 0) :=
  ⟨rfl, rfl, rfl, rfl⟩

/-- C4 (amended): a frame is 89342 dots on even frames and 89341 dots on odd
frames, regardless of whether rendering is enabled — the dot counter advances
by one modulo the frame length (the mask does not occur in the statement, so
the step is the same for rendering on and off).  The hypothesis excludes the
dot (340, 261) on odd frames, which the counter itself skips and never
reaches. -/
theorem C4_frame_length (p : Ppu) (h0 : p.dot.1 < 341) (h1 : p.dot.2 < 262)
    (h2 : ¬ (Meta.odd_frame p.meta = true ∧ p.dot = (340, 261))) :
    dot_index (Ppu.tick_counter p).dot
      = (dot_index p.dot + 1) % (if Meta.odd_frame p.meta then 89341 else 89342) := by
  rcases hd : p.dot with ⟨x, y⟩
  rw [hd] at h0 h1 h2
  simp only at h0 h1
  unfold Ppu.tick_counter dot_index DOTS LINES
  rw [hd]
  cases hodd : Meta.odd_frame p.meta
  · simp only [hodd, Bool.false_eq_true, if_false]
    by_cases hA : ((x, y) : Nat × Nat) = (341 - 1, 262 - 1)
    · rw [if_pos hA]
      rw [Prod.mk.injEq] at hA
      simp only
      omega
    · rw [if_neg hA]
      have hxy : ¬ (x = 340 ∧ y = 261) := by
        intro h
        exact hA (by rw [Prod.mk.injEq]; omega)
      by_cases hB : x + 1 = 341
      · rw [if_pos hB]
        simp only
        by_cases hy : y = 261
        · exact absurd ⟨by omega, hy⟩ hxy
        · omega
      · rw [if_neg hB]
        simp only
        omega
  · simp only [hodd, if_true]
    have h340 : ¬ (x = 340 ∧ y = 261) := by
      intro h
      exact h2 ⟨hodd, by rw [Prod.mk.injEq]; omega⟩
    by_cases hA : ((x, y) : Nat × Nat) = (341 - 2, 262 - 1)
    · rw [if_pos hA]
      rw [Prod.mk.injEq] at hA
      simp only
      omega
    · rw [if_neg hA]
      have h339 : ¬ (x = 339 ∧ y = 261) := by
        intro h
        exact hA (by rw [Prod.mk.injEq]; omega)
      by_cases hB : x + 1 = 341
      · rw [if_pos hB]
        simp only
        by_cases hy : y = 261
        · exact absurd ⟨by omega, hy⟩ h340
        · omega
      · rw [if_neg hB]
        simp only
        by_cases hy : y = 261
        · by_cases hx : x = 339
          · exact absurd ⟨hx, hy⟩ h339
          · omega
        · omega

/-- PPU state for the C4 witness: even frame, dot (5, 10). -/
def ppu_w4 : Ppu := { Ppu.init with dot := (5, 10) }

/-- C4 witness: the amended frame-length step theorem applied at the concrete
even-frame state with dot (5, 10). -/
theorem C4_frame_length_witness :
    ppu_w4.dot.1 < 341 ∧ ppu_w4.dot.2 < 262
    ∧ ¬ (Meta.odd_frame ppu_w4.meta = true ∧ ppu_w4.dot = (340, 261))
    ∧ dot_index (Ppu.tick_counter ppu_w4).dot
        = (dot_index ppu_w4.dot + 1) % (if Meta.odd_frame ppu_w4.meta then 89341 else 89342) :=
  ⟨by decide, by decide, by decide,
    C4_frame_length ppu_w4 (by decide) (by decide) (by decide)⟩

/-! ## Claim C6 -/

/-- C6: the spec claims every CPU read in `$C000-$FFFF`, including `$C000`
itself, comes from the fixed last bank.  `Mapper2::prg_rom_address` tests
`addr > 0xC000` strictly, so `$C000` itself is served from the switchable
bank: with bank register 0 the read of `$C000` returns the low-bank byte
`0xAA`, while the fixed-last-bank byte at that offset is `0x55` (and `$C001`
does come from the last bank). -/
theorem C6_c000_uses_switchable_bank :
    Mapper2.prg_rom_address m2demo 0xC000 = 0
    ∧ Mapper2.prg_rom_address m2demo 0xC001 = 16385
    ∧ Mapper2.handle_cpu m2demo (cpu_read_bus 0xC000)
        = some (m2demo, (cpu_read_bus 0xC000).setData 0xAA)
    ∧ m2demo.prg.byteAt ((m2demo.banks - 1) * 16384 + 0xC000 % 16384) = 0x55
    ∧ Mapper2.handle_cpu m2demo (cpu_read_bus 0xC001)
        = some (m2demo, (cpu_read_bus 0xC001).setData 0x55) :=
  ⟨rfl, rfl, rfl, rfl, rfl⟩

/-! ## Claim C5 -/

/-- In-range test of `Ppu::evaluate_sprite` for OAM entry `i` (sprite height is
always 8 in this code): `oam[4*i] ≤ line < oam[4*i] + 8`. -/
def sprite_in_range (oam : Nat → Nat) (line i : Nat) : Bool :=
  decide (oam (4 * i) ≤ line) && decide (line < oam (4 * i) + 8)

/-- Number of in-range sprites among the first `n` OAM entries. -/
def in_range_count (oam : Nat → Nat) (line : Nat) : Nat → Nat
  | 0 => 0
  | n + 1 => in_range_count oam line n + (if sprite_in_range oam line n then 1 else 0)

lemma in_range_count_succ (oam : Nat → Nat) (line n : Nat) :
    in_range_count oam line (n + 1)
      = in_range_count oam line n + (if sprite_in_range oam line n then 1 else 0) := rfl

lemma in_range_count_mono (oam : Nat → Nat) (line k : Nat) :
    ∀ n, k ≤ n → in_range_count oam line k ≤ in_range_count oam line n := by
  intro n
  induction n with
  | zero =>
    intro h
    have hk : k = 0 := Nat.le_zero.mp h
    simp [hk]
  | succ n ih =>
    intro h
    rcases Nat.lt_or_ge k (n + 1) with hk | hk
    · exact le_trans (ih (by omega)) (by rw [in_range_count_succ]; omega)
    · have hkk : k = n + 1 := by omega
      rw [hkk]

lemma fill_loop_meta (fuel : Nat) : ∀ p : Ppu, (Ppu.fill_loop fuel p).meta = p.meta := by
  induction fuel with
  | zero => intro p; rfl
  | succ fuel ih =>
    intro p
    unfold Ppu.fill_loop
    by_cases h : p.eval_index < 8
    · rw [if_pos h, ih]
    · rw [if_neg h]

/-- Invariant of the OAM scan loop of `Ppu::evaluate_sprites`: after the first
`n` entries, `eval_index` is the number of in-range sprites capped at 8, and
the overflow bit has been raised iff some entry was examined after 8 in-range
sprites had already been copied. -/
lemma eval_loop_spec (p : Ppu) (h0 : p.eval_index = 0) (n : Nat) :
    (Ppu.eval_loop p n).oam = p.oam
    ∧ (Ppu.eval_loop p n).dot = p.dot
    ∧ (Ppu.eval_loop p n).eval_index = min (in_range_count p.oam p.dot.2 n) 8
    ∧ Meta.sprite_overflow (Ppu.eval_loop p n).meta
        = (Meta.sprite_overflow p.meta
           || decide (1 ≤ n ∧ 8 ≤ in_range_count p.oam p.dot.2 (n - 1))) := by
  induction n with
  | zero =>
    refine ⟨rfl, rfl, ?_, ?_⟩
    · simp [Ppu.eval_loop, in_range_count, h0]
    · simp [Ppu.eval_loop]
  | succ n ih =>
    obtain ⟨ho, hdt, he, hov⟩ := ih
    have hmono := in_range_count_mono p.oam p.dot.2 (n - 1) n (Nat.sub_le n 1)
    have hstep := in_range_count_mono p.oam p.dot.2 n (n + 1) (Nat.le_succ n)
    simp only [Ppu.eval_loop, Ppu.evaluate_sprite, ho, hdt]
    by_cases hfull : 8 ≤ (Ppu.eval_loop p n).eval_index
    · rw [if_pos hfull]
      rw [he] at hfull
      have hcnt : 8 ≤ in_range_count p.oam p.dot.2 n := by omega
      refine ⟨rfl, rfl, ?_, ?_⟩
      · dsimp only
        rw [he]
        omega
      · dsimp only
        rw [sprite_overflow_set_sprite_overflow]
        have hT : decide (1 ≤ n + 1 ∧ 8 ≤ in_range_count p.oam p.dot.2 (n + 1 - 1)) = true := by
          simp only [decide_eq_true_eq]
          exact ⟨by omega, by simpa using hcnt⟩
        rw [hT, Bool.or_true]
    · rw [if_neg hfull]
      rw [he] at hfull
      have hlt : in_range_count p.oam p.dot.2 n < 8 := by omega
      have hdec :
          decide (1 ≤ n + 1 ∧ 8 ≤ in_range_count p.oam p.dot.2 (n + 1 - 1)) = false := by
        simp only [decide_eq_false_iff_not]
        intro h
        have h8 := h.2
        simp only [Nat.add_sub_cancel] at h8
        omega
      have hdec0 :
          decide (1 ≤ n ∧ 8 ≤ in_range_count p.oam p.dot.2 (n - 1)) = false := by
        simp only [decide_eq_false_iff_not]
        intro h
        omega
      by_cases hin : (p.oam (4 * n) ≤ p.dot.2 ∧ p.dot.2 < p.oam (4 * n) + 8)
      · rw [if_neg (not_not_intro hin)]
        have hsir : sprite_in_range p.oam p.dot.2 n = true := by
          simp [sprite_in_range, hin.1, hin.2]
        refine ⟨rfl, rfl, ?_, ?_⟩
        · dsimp only
          rw [he, in_range_count_succ, hsir]
          simp only [if_true]
          omega
        · dsimp only
          rw [hov, hdec, hdec0]
      · rw [if_pos hin]
        have hsir : sprite_in_range p.oam p.dot.2 n = false := by
          simp only [sprite_in_range, Bool.and_eq_false_iff]
          rcases Decidable.not_and_iff_or_not.mp hin with h | h
          · exact Or.inl (by simpa using h)
          · exact Or.inr (by simpa using h)
        refine ⟨ho, hdt, ?_, ?_⟩
        · rw [he, in_range_count_succ, hsir]
          simp
        · rw [hov, hdec, hdec0]

/-- C5 (amended): after `Ppu::evaluate_sprites` the sprite-overflow bit reads
as: it was already set, or at least 8 of the first 63 OAM entries are in range
for the current line.  Equivalently, the flag is raised as soon as any ninth
entry is merely examined after eight in-range sprites were copied, whether or
not that ninth entry is itself in range — a 9th in-range match is not
required. -/
theorem C5_overflow_rule (p : Ppu) :
    Meta.sprite_overflow (Ppu.evaluate_sprites p).meta
      = (Meta.sprite_overflow p.meta
         || decide (8 ≤ in_range_count p.oam p.dot.2 63)) := by
  unfold Ppu.evaluate_sprites
  rw [fill_loop_meta]
  obtain ⟨-, -, -, hov⟩ :=
    eval_loop_spec { p with eval_index := 0, fetch_index := 0 } rfl 64
  rw [hov]
  norm_num

/-- PPU state for the C5 counterexample: line 100, OAM whose first 8 entries
have y = 100 (exactly in range) and whose remaining 56 entries have y = 240
(out of range for every visible line). -/
def ppu_c5 : Ppu :=
  { Ppu.init with
    dot := (257, 100)
    oam := fun i => if i % 4 = 0 then (if i < 32 then 100 else 240) else 0 }

set_option maxRecDepth 8000 in
/-- C5 counterexample: the claim says the overflow bit is set iff a 9th
in-range sprite match would occur and that out-of-range sprites never cause
overflow.  Here exactly 8 sprites are in range (no 9th match exists), yet
`Ppu::evaluate_sprites` sets the overflow bit, because entry 8 is examined
(out of range though it is) while `eval_index` is already 8. -/
theorem C5_overflow_without_ninth_match :
    Meta.sprite_overflow ppu_c5.meta = false
    ∧ in_range_count ppu_c5.oam ppu_c5.dot.2 64 = 8
    ∧ Meta.sprite_overflow (Ppu.evaluate_sprites ppu_c5).meta = true := by
  refine ⟨rfl, by decide, by decide⟩

/-! ## Reduction lemmas for the `$2000-$3FFF` register interface -/

lemma handle_cpu_2006_first (p : Ppu) (bus : PpuBus) (cpu : CpuBus)
    (ha1 : 0x2000 ≤ cpu.address) (ha2 : cpu.address < 0x4000)
    (hmod : cpu.address % 8 = 6) (hread : cpu.read = false)
    (hw : Meta.w p.meta = false) :
    Ppu.handle_cpu p bus cpu =
      ({ p with t := (p.t &&& 0xFF) ||| ((cpu.data &&& 63) <<< 8),
                meta := Meta.set_w p.meta true }, bus, cpu) := by
  unfold Ppu.handle_cpu
  rw [if_neg (not_not_intro ⟨ha1, ha2⟩)]
  simp [hmod, hread, hw]

lemma handle_cpu_2006_second (p : Ppu) (bus : PpuBus) (cpu : CpuBus)
    (ha1 : 0x2000 ≤ cpu.address) (ha2 : cpu.address < 0x4000)
    (hmod : cpu.address % 8 = 6) (hread : cpu.read = false)
    (hw : Meta.w p.meta = true) :
    Ppu.handle_cpu p bus cpu =
      ({ p with t := (p.t &&& 0xFF00) ||| cpu.data,
                v := (p.t &&& 0xFF00) ||| cpu.data,
                meta := Meta.set_w p.meta false }, bus, cpu) := by
  unfold Ppu.handle_cpu
  rw [if_neg (not_not_intro ⟨ha1, ha2⟩)]
  simp [hmod, hread, hw]

lemma handle_cpu_2007_write_palette (p : Ppu) (bus : PpuBus) (cpu : CpuBus)
    (ha1 : 0x2000 ≤ cpu.address) (ha2 : cpu.address < 0x4000)
    (hmod : cpu.address % 8 = 7) (hread : cpu.read = false)
    (hpal : is_palette_address p.v = true) :
    Ppu.handle_cpu p bus cpu =
      ({ p with palette := Function.update p.palette (normalize_palette_address p.v) cpu.data,
                v := (p.v + Control.inc_amount p.control) % 0x4000 }, bus, cpu) := by
  unfold Ppu.handle_cpu Ppu.increment_v
  rw [if_neg (not_not_intro ⟨ha1, ha2⟩)]
  simp [hmod, hread, hpal]

lemma handle_cpu_2007_read_palette (p : Ppu) (bus : PpuBus) (cpu : CpuBus)
    (ha1 : 0x2000 ≤ cpu.address) (ha2 : cpu.address < 0x4000)
    (hmod : cpu.address % 8 = 7) (hread : cpu.read = true)
    (hpal : is_palette_address p.v = true) :
    Ppu.handle_cpu p bus cpu =
      ({ p with meta := Meta.set_data_latch_update_pending
                  (Meta.set_read_pending p.meta true) true,
                v := (p.v + Control.inc_amount p.control) % 0x4000 },
       { bus with address := p.v },
       cpu.setData (p.palette (normalize_palette_address p.v))) := by
  unfold Ppu.handle_cpu Ppu.increment_v Ppu.read
  rw [if_neg (not_not_intro ⟨ha1, ha2⟩)]
  simp [hmod, hread, hpal]

lemma and_or_right (a b c : Nat) : (a ||| b) &&& c = (a &&& c) ||| (b &&& c) := by
  refine Nat.eq_of_testBit_eq fun i => ?_
  simp [Nat.testBit_or, Nat.testBit_and, Bool.and_or_distrib_right]

/-- After a first `$2006` write the high byte of `t` is `0x3F`; the second
write's `t &= 0xFF00` therefore leaves exactly `0x3F00`, whatever the low
byte of the old `t` was. -/
lemma second_addr_write_mask (t : Nat) : ((t &&& 255) ||| 16128) &&& 65280 = 16128 := by
  rw [and_or_right, Nat.land_assoc]
  have hz : (255 &&& 65280 : Nat) = 0 := by decide
  have hd : ((16128 : Nat) &&& 65280) = 16128 := by decide
  rw [hz, Nat.and_zero, Nat.zero_or, hd]

lemma cpu_write_bus_address (a d : Nat) : (cpu_write_bus a d).address = a := rfl
lemma cpu_write_bus_read (a d : Nat) : (cpu_write_bus a d).read = false := by
  simp [cpu_write_bus, CpuBus.read, get_flag_u8]
lemma cpu_read_bus_address (a : Nat) : (cpu_read_bus a).address = a := rfl
lemma cpu_read_bus_read (a : Nat) : (cpu_read_bus a).read = true := by
  simp [cpu_read_bus, CpuBus.read, get_flag_u8]

lemma write_2006_hi (p : Ppu) (bus : PpuBus) (hw : Meta.w p.meta = false) :
    Ppu.handle_cpu p bus (cpu_write_bus 0x2006 0x3F) =
      ({ p with t := (p.t &&& 255) ||| 16128, meta := Meta.set_w p.meta true },
       bus, cpu_write_bus 0x2006 0x3F) := by
  have h := handle_cpu_2006_first p bus (cpu_write_bus 0x2006 0x3F)
    (by norm_num [cpu_write_bus_address]) (by norm_num [cpu_write_bus_address])
    (by norm_num [cpu_write_bus_address]) (cpu_write_bus_read _ _) hw
  rw [h]
  rfl

lemma write_2006_lo (p : Ppu) (bus : PpuBus) (d : Nat) (hw : Meta.w p.meta = true) :
    Ppu.handle_cpu p bus (cpu_write_bus 0x2006 d) =
      ({ p with t := (p.t &&& 65280) ||| d,
                v := (p.t &&& 65280) ||| d,
                meta := Meta.set_w p.meta false },
       bus, cpu_write_bus 0x2006 d) := by
  have h := handle_cpu_2006_second p bus (cpu_write_bus 0x2006 d)
    (by norm_num [cpu_write_bus_address]) (by norm_num [cpu_write_bus_address])
    (by norm_num [cpu_write_bus_address]) (cpu_write_bus_read _ _) hw
  rw [h]
  rfl

lemma write_2007_pal (p : Ppu) (bus : PpuBus) (d : Nat)
    (hpal : is_palette_address p.v = true) :
    Ppu.handle_cpu p bus (cpu_write_bus 0x2007 d) =
      ({ p with palette := Function.update p.palette (normalize_palette_address p.v) d,
                v := (p.v + Control.inc_amount p.control) % 0x4000 },
       bus, cpu_write_bus 0x2007 d) := by
  have h := handle_cpu_2007_write_palette p bus (cpu_write_bus 0x2007 d)
    (by norm_num [cpu_write_bus_address]) (by norm_num [cpu_write_bus_address])
    (by norm_num [cpu_write_bus_address]) (cpu_write_bus_read _ _) hpal
  rw [h]
  rfl

lemma read_2007_pal (p : Ppu) (bus : PpuBus)
    (hpal : is_palette_address p.v = true) :
    Ppu.handle_cpu p bus (cpu_read_bus 0x2007) =
      ({ p with meta := Meta.set_data_latch_update_pending
                  (Meta.set_read_pending p.meta true) true,
                v := (p.v + Control.inc_amount p.control) % 0x4000 },
       { bus with address := p.v },
       (cpu_read_bus 0x2007).setData (p.palette (normalize_palette_address p.v))) := by
  have h := handle_cpu_2007_read_palette p bus (cpu_read_bus 0x2007)
    (by norm_num [cpu_read_bus_address]) (by norm_num [cpu_read_bus_address])
    (by norm_num [cpu_read_bus_address]) (cpu_read_bus_read _) hpal
  rw [h]

/-! ## Claim C8 -/

/-- CPU-visible register cycle on the PPU: run `Ppu::handle_cpu` and keep the
resulting PPU state and PPU bus. -/
def reg_step (s : Ppu × PpuBus) (cpu : CpuBus) : Ppu × PpuBus :=
  let r := Ppu.handle_cpu s.1 s.2 cpu
  (r.1, r.2.1)

/-- Byte driven onto the CPU data bus by one `Ppu::handle_cpu` cycle. -/
def reg_out (s : Ppu × PpuBus) (cpu : CpuBus) : Nat :=
  (Ppu.handle_cpu s.1 s.2 cpu).2.2.data

/-- Composition of six CPU cycles on the PPU register interface: set the VRAM
address via two `$2006` writes (`$3F`, then `lo`), write `d` to `$2007`, set
the address again (`$3F`, then `lo2`), read `$2007`, and return the byte the
read drives onto the CPU data bus. -/
def palette_roundtrip (p : Ppu) (bus : PpuBus) (lo d lo2 : Nat) : Nat :=
  reg_out
    (reg_step
      (reg_step
        (reg_step
          (reg_step
            (reg_step (p, bus) (cpu_write_bus 0x2006 0x3F))
            (cpu_write_bus 0x2006 lo))
          (cpu_write_bus 0x2007 d))
        (cpu_write_bus 0x2006 0x3F))
      (cpu_write_bus 0x2006 lo2))
    (cpu_read_bus 0x2007)

lemma reg_step_pair (p : Ppu) (bus : PpuBus) (cpu : CpuBus) (p2 : Ppu) (bus2 : PpuBus)
    (cpu2 : CpuBus) (h : Ppu.handle_cpu p bus cpu = (p2, bus2, cpu2)) :
    reg_step (p, bus) cpu = (p2, bus2) := by
  unfold reg_step
  rw [h]

/-- PPU state after the first `$2006` write (`$3F`) from `w = false`. -/
def rt1 (p : Ppu) : Ppu :=
  { p with t := (p.t &&& 255) ||| 16128, meta := Meta.set_w p.meta true }

/-- PPU state after the full `$2006` address-pair write (`$3F`, `lo`). -/
def rt2 (p : Ppu) (lo : Nat) : Ppu :=
  { p with t := 16128 ||| lo, v := 16128 ||| lo,
           meta := Meta.set_w (Meta.set_w p.meta true) false }

/-- PPU state after additionally writing `d` to `$2007` at palette address
`$3F00 | lo`. -/
def rt3 (p : Ppu) (lo d : Nat) : Ppu :=
  { p with t := 16128 ||| lo,
           v := ((16128 ||| lo) + Control.inc_amount p.control) % 0x4000,
           meta := Meta.set_w (Meta.set_w p.meta true) false,
           palette := Function.update p.palette (normalize_palette_address (16128 ||| lo)) d }

/-- PPU state after the first `$2006` write of the second address pair. -/
def rt4 (p : Ppu) (lo d : Nat) : Ppu :=
  { rt3 p lo d with meta := Meta.set_w (rt3 p lo d).meta true }

/-- PPU state after the second address pair (`$3F`, `lo2`) is written. -/
def rt5 (p : Ppu) (lo d lo2 : Nat) : Ppu :=
  { rt4 p lo d with t := 16128 ||| lo2, v := 16128 ||| lo2,
                    meta := Meta.set_w (rt4 p lo d).meta false }

lemma rt1_eq (p : Ppu) (bus : PpuBus) (hw : Meta.w p.meta = false) :
    Ppu.handle_cpu p bus (cpu_write_bus 0x2006 0x3F)
      = (rt1 p, bus, cpu_write_bus 0x2006 0x3F) :=
  write_2006_hi p bus hw

lemma rt2_eq (p : Ppu) (bus : PpuBus) (lo : Nat) :
    Ppu.handle_cpu (rt1 p) bus (cpu_write_bus 0x2006 lo)
      = (rt2 p lo, bus, cpu_write_bus 0x2006 lo) := by
  rw [write_2006_lo (rt1 p) bus lo (w_set_w p.meta true)]
  unfold rt1 rt2
  dsimp only
  rw [second_addr_write_mask]

lemma rt3_eq (p : Ppu) (bus : PpuBus) (lo d : Nat)
    (h3 : is_palette_address (16128 ||| lo) = true) :
    Ppu.handle_cpu (rt2 p lo) bus (cpu_write_bus 0x2007 d)
      = (rt3 p lo d, bus, cpu_write_bus 0x2007 d) := by
  rw [write_2007_pal (rt2 p lo) bus d h3]
  unfold rt2 rt3
  dsimp only

lemma rt4_eq (p : Ppu) (bus : PpuBus) (lo d : Nat)
    (h1 : ((16128 ||| lo) &&& 255) ||| 16128 = 16128 ||| lo) :
    Ppu.handle_cpu (rt3 p lo d) bus (cpu_write_bus 0x2006 0x3F)
      = (rt4 p lo d, bus, cpu_write_bus 0x2006 0x3F) := by
  rw [write_2006_hi (rt3 p lo d) bus (w_set_w _ false)]
  unfold rt4 rt3
  dsimp only
  rw [h1]

lemma rt5_eq (p : Ppu) (bus : PpuBus) (lo d lo2 : Nat)
    (h2 : ((16128 ||| lo) &&& 65280) = 16128) :
    Ppu.handle_cpu (rt4 p lo d) bus (cpu_write_bus 0x2006 lo2)
      = (rt5 p lo d lo2, bus, cpu_write_bus 0x2006 lo2) := by
  rw [write_2006_lo (rt4 p lo d) bus lo2 (w_set_w _ true)]
  unfold rt5 rt4 rt3
  dsimp only
  rw [h2]

lemma palette_roundtrip_eq (p : Ppu) (bus : PpuBus) (d lo lo2 : Nat)
    (hw : Meta.w p.meta = false)
    (h1 : ((16128 ||| lo) &&& 255) ||| 16128 = 16128 ||| lo)
    (h2 : ((16128 ||| lo) &&& 65280) = 16128)
    (h3 : is_palette_address (16128 ||| lo) = true)
    (h4 : is_palette_address (16128 ||| lo2) = true)
    (h5 : normalize_palette_address (16128 ||| lo2) = normalize_palette_address (16128 ||| lo)) :
    palette_roundtrip p bus lo d lo2 = d := by
  have hpal5 : is_palette_address (rt5 p lo d lo2).v = true := by
    unfold rt5 rt4 rt3
    dsimp only
    exact h4
  unfold palette_roundtrip
  rw [reg_step_pair _ _ _ _ _ _ (rt1_eq p bus hw)]
  rw [reg_step_pair _ _ _ _ _ _ (rt2_eq p bus lo)]
  rw [reg_step_pair _ _ _ _ _ _ (rt3_eq p bus lo d h3)]
  rw [reg_step_pair _ _ _ _ _ _ (rt4_eq p bus lo d h1)]
  rw [reg_step_pair _ _ _ _ _ _ (rt5_eq p bus lo d lo2 h2)]
  unfold reg_out
  rw [read_2007_pal (rt5 p lo d lo2) bus hpal5]
  dsimp only
  unfold rt5 rt4 rt3
  dsimp only
  rw [h5, Function.update_same]
  rfl

/-- C8: the palette-mirroring round trip through `$2006`/`$2007` holds for all
four alias pairs in both directions: writing a byte to `$3F10` and reading
`$3F00` returns it, and likewise for `$3F14`/`$3F04`, `$3F18`/`$3F08`,
`$3F1C`/`$3F0C`, each in either order. -/
theorem C8_palette_mirror_roundtrip (p : Ppu) (bus : PpuBus) (d lo lo2 : Nat)
    (hw : Meta.w p.meta = false)
    (hpair : (lo, lo2) = (0x10, 0x00) ∨ (lo, lo2) = (0x00, 0x10)
      ∨ (lo, lo2) = (0x14, 0x04) ∨ (lo, lo2) = (0x04, 0x14)
      ∨ (lo, lo2) = (0x18, 0x08) ∨ (lo, lo2) = (0x08, 0x18)
      ∨ (lo, lo2) = (0x1C, 0x0C) ∨ (lo, lo2) = (0x0C, 0x1C)) :
    palette_roundtrip p bus lo d lo2 = d := by
  rcases hpair with h | h | h | h | h | h | h | h <;>
    (simp only [Prod.mk.injEq] at h; obtain ⟨rfl, rfl⟩ := h) <;>
    exact palette_roundtrip_eq p bus d _ _ hw
      (by decide) (by decide) (by decide) (by decide) (by decide)

/-- C8 witness: writing `0xAB` to `$3F10` from the power-on PPU state and
reading `$3F00` back returns `0xAB`. -/
theorem C8_palette_mirror_roundtrip_witness :
    Meta.w Ppu.init.meta = false
    ∧ palette_roundtrip Ppu.init PpuBus.init 0x10 0xAB 0x00 = 0xAB :=
  ⟨by decide,
   C8_palette_mirror_roundtrip Ppu.init PpuBus.init 0xAB 0x10 0x00 (by decide) (Or.inl rfl)⟩

/-! ## Claim C7 -/

/-- C7 (amended): a CPU read of `$2007` while `v` is a palette address returns
the palette RAM byte at the mirrored index directly, and issues the
buffer-refill read on the PPU bus at address `v` itself — not at
`v & 0x2FFF`.  Since `v ≥ $3F00`, the address fails the `$2000-$2FFF`
`vram_enable` window that the mappers compute, so the nametable RAM does not
respond to that read. -/
theorem C7_palette_read_buffers_at_v (p : Ppu) (bus : PpuBus) (cpu : CpuBus)
    (ha1 : 0x2000 ≤ cpu.address) (ha2 : cpu.address < 0x4000)
    (hmod : cpu.address % 8 = 7) (hread : cpu.read = true)
    (hpal : is_palette_address p.v = true) :
    (Ppu.handle_cpu p bus cpu).2.2.data = p.palette (normalize_palette_address p.v)
    ∧ (Ppu.handle_cpu p bus cpu).2.1.address = p.v
    ∧ Meta.read_pending (Ppu.handle_cpu p bus cpu).1.meta = true
    ∧ Meta.data_latch_update_pending (Ppu.handle_cpu p bus cpu).1.meta = true
    ∧ (decide (0x2000 ≤ (Ppu.handle_cpu p bus cpu).2.1.address)
        && decide ((Ppu.handle_cpu p bus cpu).2.1.address < 0x3000)) = false := by
  rw [handle_cpu_2007_read_palette p bus cpu ha1 ha2 hmod hread hpal]
  have hge : 0x3F00 ≤ p.v := by
    unfold is_palette_address at hpal
    simp only [Bool.and_eq_true, decide_eq_true_eq] at hpal
    exact hpal.1
  refine ⟨rfl, rfl, ?_, ?_, ?_⟩
  · dsimp only
    rw [read_pending_set_dlup, read_pending_set_read_pending]
  · dsimp only
    rw [dlup_set_dlup]
  · dsimp only
    have hlt : decide (p.v < 0x3000) = false := by
      simp only [decide_eq_false_iff_not]
      omega
    rw [hlt, Bool.and_false]

/-- PPU state for the C7 claims: `v = $3F00`, a recognizable data latch, and
palette RAM whose cell 0 holds `0x21`. -/
def ppu_c7 : Ppu :=
  { Ppu.init with
    v := 0x3F00
    data_latch := 0x77
    palette := fun i => if i = 0 then 0x21 else 0 }

/-- Result of the `$2007` read cycle at `v = $3F00` from `ppu_c7`. -/
def c7r : Ppu × PpuBus × CpuBus :=
  Ppu.handle_cpu ppu_c7 PpuBus.init (cpu_read_bus 0x2007)

/-- C7 counterexample: the claim says the buffer refill is issued at
`v & 0x2FFF` (nametable VRAM underneath the palette).  In fact the PPU drives
the read at `v = $3F00` itself, not at `$2F00`; and on the following cycle
(`perform_memop` raises `read_enable`) mapper 2 computes `vram_enable = false`
for that address, so no nametable byte is driven at all. -/
theorem C7_refill_not_at_masked_address :
    (0x3F00 : Nat) &&& 0x2FFF = 0x2F00
    ∧ c7r.2.1.address = 0x3F00
    ∧ ¬ c7r.2.1.address = 0x2F00
    ∧ Meta.read_pending c7r.1.meta = true
    ∧ c7r.2.2.data = 0x21
    ∧ ((Mapper2.handle_ppu m2demo { flags := 0 } (Ppu.perform_memop c7r.1 c7r.2.1).2).map
        (fun x => x.2.1.vram_enable)) = some false
    ∧ (Ppu.perform_memop c7r.1 c7r.2.1).2.read_enable = true := by
  refine ⟨by decide, by decide, by decide, by decide, by decide, by decide, by decide⟩

/-- C7 witness: the palette-read theorem applied at the concrete state
`ppu_c7` with a CPU read of `$2007`. -/
theorem C7_palette_read_buffers_at_v_witness :
    is_palette_address ppu_c7.v = true
    ∧ ((Ppu.handle_cpu ppu_c7 PpuBus.init (cpu_read_bus 0x2007)).2.2.data
        = ppu_c7.palette (normalize_palette_address ppu_c7.v)
      ∧ (Ppu.handle_cpu ppu_c7 PpuBus.init (cpu_read_bus 0x2007)).2.1.address = ppu_c7.v
      ∧ Meta.read_pending (Ppu.handle_cpu ppu_c7 PpuBus.init (cpu_read_bus 0x2007)).1.meta = true
      ∧ Meta.data_latch_update_pending
          (Ppu.handle_cpu ppu_c7 PpuBus.init (cpu_read_bus 0x2007)).1.meta = true
      ∧ (decide (0x2000 ≤ (Ppu.handle_cpu ppu_c7 PpuBus.init (cpu_read_bus 0x2007)).2.1.address)
          && decide ((Ppu.handle_cpu ppu_c7 PpuBus.init (cpu_read_bus 0x2007)).2.1.address
              < 0x3000)) = false) :=
  ⟨by decide,
   C7_palette_read_buffers_at_v ppu_c7 PpuBus.init (cpu_read_bus 0x2007)
     (by decide) (by decide) (by decide) (by decide) (by decide)⟩

/-! ## Claim C10 -/

/-- C10: a CPU write to `$2007` while `v` is a palette address modifies only
the addressed byte of palette RAM and increments `v`; the PPU bus is left
untouched, the pending-memop bits stay clear, so the following
`perform_memop` keeps both enable lines low, VRAM is not written, and the
mapper's CHR memory is unchanged; OAM, the data latch and the whole `meta`
word are also unchanged. -/
theorem C10_palette_write_local (p : Ppu) (bus : PpuBus) (cpu : CpuBus)
    (ha1 : 0x2000 ≤ cpu.address) (ha2 : cpu.address < 0x4000)
    (hmod : cpu.address % 8 = 7) (hread : cpu.read = false)
    (hpal : is_palette_address p.v = true)
    (hrp : Meta.read_pending p.meta = false) (hwp : Meta.write_pending p.meta = false) :
    (Ppu.handle_cpu p bus cpu).1.palette
        = Function.update p.palette (normalize_palette_address p.v) cpu.data
    ∧ (Ppu.handle_cpu p bus cpu).1.v = (p.v + Control.inc_amount p.control) % 0x4000
    ∧ (Ppu.handle_cpu p bus cpu).1.oam = p.oam
    ∧ (Ppu.handle_cpu p bus cpu).1.meta = p.meta
    ∧ (Ppu.handle_cpu p bus cpu).1.data_latch = p.data_latch
    ∧ (Ppu.handle_cpu p bus cpu).2.1 = bus
    ∧ (Ppu.perform_memop (Ppu.handle_cpu p bus cpu).1 bus).2.read_enable = false
    ∧ (Ppu.perform_memop (Ppu.handle_cpu p bus cpu).1 bus).2.write_enable = false
    ∧ (∀ vram : Nat → Nat, ∀ mbus : MapperBus,
        (update_vram vram mbus (Ppu.perform_memop (Ppu.handle_cpu p bus cpu).1 bus).2).1 = vram)
    ∧ (∀ (m : Mapper2) (mb : MapperBus),
        (Mapper2.handle_ppu m mb (Ppu.perform_memop (Ppu.handle_cpu p bus cpu).1 bus).2).map
          (fun x => x.1.chr) = some m.chr) := by
  rw [handle_cpu_2007_write_palette p bus cpu ha1 ha2 hmod hread hpal]
  have hre : (Ppu.perform_memop
      ({ p with palette := Function.update p.palette (normalize_palette_address p.v) cpu.data,
                v := (p.v + Control.inc_amount p.control) % 0x4000 }) bus).2.read_enable
      = false := by
    unfold Ppu.perform_memop
    dsimp only
    rw [read_enable_set_write_enable, read_enable_set_read_enable, hrp]
  have hwe : (Ppu.perform_memop
      ({ p with palette := Function.update p.palette (normalize_palette_address p.v) cpu.data,
                v := (p.v + Control.inc_amount p.control) % 0x4000 }) bus).2.write_enable
      = false := by
    unfold Ppu.perform_memop
    dsimp only
    rw [write_enable_set_write_enable, hwp]
  refine ⟨rfl, rfl, rfl, rfl, rfl, rfl, hre, hwe, ?_, ?_⟩
  · intro vram mbus
    unfold update_vram
    by_cases he : mbus.vram_enable
    · rw [if_neg (not_not_intro he)]
      simp only [hre, hwe, Bool.false_eq_true, if_false]
    · rw [if_pos he]
  · intro m mb
    unfold Mapper2.handle_ppu
    by_cases haddr :
        (Ppu.perform_memop
          ({ p with palette := Function.update p.palette (normalize_palette_address p.v) cpu.data,
                    v := (p.v + Control.inc_amount p.control) % 0x4000 }) bus).2.address < 0x2000
    · rw [if_pos haddr]
      simp only [hre, hwe, Bool.false_eq_true, if_false]
      rfl
    · rw [if_neg haddr]
      rfl

/-- PPU state for the C10 witness: `v = $3F15`, pending bits clear. -/
def ppu_c10 : Ppu := { Ppu.init with v := 0x3F15 }

/-- C10 witness: the palette-write locality theorem applied to the concrete
state `ppu_c10` and a CPU write of `0x5A` to `$2007`. -/
theorem C10_palette_write_local_witness :
    is_palette_address ppu_c10.v = true
    ∧ Meta.read_pending ppu_c10.meta = false
    ∧ ((Ppu.handle_cpu ppu_c10 PpuBus.init (cpu_write_bus 0x2007 0x5A)).1.palette
        = Function.update ppu_c10.palette (normalize_palette_address ppu_c10.v) 0x5A
      ∧ (Ppu.handle_cpu ppu_c10 PpuBus.init (cpu_write_bus 0x2007 0x5A)).1.v
          = (ppu_c10.v + Control.inc_amount ppu_c10.control) % 0x4000
      ∧ (Ppu.handle_cpu ppu_c10 PpuBus.init (cpu_write_bus 0x2007 0x5A)).1.oam = ppu_c10.oam
      ∧ (Ppu.handle_cpu ppu_c10 PpuBus.init (cpu_write_bus 0x2007 0x5A)).1.meta = ppu_c10.meta
      ∧ (Ppu.handle_cpu ppu_c10 PpuBus.init (cpu_write_bus 0x2007 0x5A)).1.data_latch
          = ppu_c10.data_latch
      ∧ (Ppu.handle_cpu ppu_c10 PpuBus.init (cpu_write_bus 0x2007 0x5A)).2.1 = PpuBus.init
      ∧ (Ppu.perform_memop
          (Ppu.handle_cpu ppu_c10 PpuBus.init (cpu_write_bus 0x2007 0x5A)).1
          PpuBus.init).2.read_enable = false
      ∧ (Ppu.perform_memop
          (Ppu.handle_cpu ppu_c10 PpuBus.init (cpu_write_bus 0x2007 0x5A)).1
          PpuBus.init).2.write_enable = false
      ∧ (∀ vram : Nat → Nat, ∀ mbus : MapperBus,
          (update_vram vram mbus
            (Ppu.perform_memop
              (Ppu.handle_cpu ppu_c10 PpuBus.init (cpu_write_bus 0x2007 0x5A)).1
              PpuBus.init).2).1 = vram)
      ∧ (∀ (m : Mapper2) (mb : MapperBus),
          (Mapper2.handle_ppu m mb
            (Ppu.perform_memop
              (Ppu.handle_cpu ppu_c10 PpuBus.init (cpu_write_bus 0x2007 0x5A)).1
              PpuBus.init).2).map (fun x => x.1.chr) = some m.chr)) :=
  ⟨by decide, by decide,
   C10_palette_write_local ppu_c10 PpuBus.init (cpu_write_bus 0x2007 0x5A)
     (by decide) (by decide) (by decide) (by decide) (by decide) (by decide) (by decide)⟩

/-! ## Claim C9 -/

lemma shiftRight7_ne_zero (F : Nat) : (F >>> 7 ≠ 0) ↔ 128 ≤ F := by
  rw [Nat.shiftRight_eq_div_pow]
  norm_num
  omega

lemma testBit7_eq (x : Nat) (hx : x < 256) : x.testBit 7 = decide (128 ≤ x) := by
  rw [Nat.testBit_to_div_mod]
  apply decide_eq_decide.mpr
  norm_num
  omega

/-- Signed-overflow characterization of ADC: the `i8::carrying_add` overflow
computed by `Cpu::exec_adc` coincides with the spec formula
`(~(a^b) & (a^r)) >> 7`, where `r` is the mod-256 sum. -/
lemma adc_overflow_eq_formula (a b cn : Nat) (ha : a < 256) (hb : b < 256) (hc : cn ≤ 1) :
    decide (sign_cast_u8 a + sign_cast_u8 b + (cn : Int) < -128
      ∨ (127 : Int) < sign_cast_u8 a + sign_cast_u8 b + (cn : Int))
    = decide ((((a ^^^ b) ^^^ 255) &&& (a ^^^ (a + b + cn) % 256)) >>> 7 ≠ 0) := by
  set r := (a + b + cn) % 256 with hr
  have hrlt : r < 256 := Nat.mod_lt _ (by norm_num)
  have ha8 : a < 2 ^ 8 := by simpa using ha
  have hr8 : r < 2 ^ 8 := by simpa using hrlt
  have hxr : a ^^^ r < 256 := by simpa using Nat.xor_lt_two_pow ha8 hr8
  have hFlt : (((a ^^^ b) ^^^ 255) &&& (a ^^^ r)) < 256 :=
    lt_of_le_of_lt Nat.and_le_right hxr
  have hFt : (128 ≤ ((a ^^^ b) ^^^ 255) &&& (a ^^^ r))
      ↔ ((((a ^^^ b) ^^^ 255) &&& (a ^^^ r)).testBit 7 = true) := by
    rw [testBit7_eq _ hFlt]
    exact decide_eq_true_iff.symm
  have hFbit : (((a ^^^ b) ^^^ 255) &&& (a ^^^ r)).testBit 7
      = ((!(a.testBit 7 ^^ b.testBit 7)) && (a.testBit 7 ^^ r.testBit 7)) := by
    have h255 : Nat.testBit 255 7 = true := by decide
    simp [Nat.testBit_and, Nat.testBit_xor, h255, Bool.xor_true]
  have key : ((((a ^^^ b) ^^^ 255) &&& (a ^^^ r)) >>> 7 ≠ 0)
      ↔ ((128 ≤ a ↔ 128 ≤ b) ∧ ¬ (128 ≤ a ↔ 128 ≤ r)) := by
    rw [shiftRight7_ne_zero, hFt, hFbit,
      testBit7_eq a ha, testBit7_eq b hb, testBit7_eq r hrlt]
    by_cases h1 : 128 ≤ a <;> by_cases h2 : 128 ≤ b <;> by_cases h3 : 128 ≤ r <;>
      simp [h1, h2, h3]
  apply decide_eq_decide.mpr
  rw [key]
  unfold sign_cast_u8
  split_ifs with hsa hsb hsb <;> omega

/-- C9: `Cpu::exec_adc` adds the operand and the carry flag to A; the result
is the mod-256 sum, C is set iff the unsigned sum reaches 256, V agrees with
the spec formula `(~(a^b) & (a^r)) >> 7 != 0`, N is bit 7 of the result, and
Z holds iff the result is zero. -/
theorem C9_adc_flags (a b : Nat) (f : Flags) (ha : a < 256) (hb : b < 256) :
    (exec_adc a f b).1 = (a + b + (if f.carry then 1 else 0)) % 256
    ∧ (exec_adc a f b).2.carry = decide (256 ≤ a + b + (if f.carry then 1 else 0))
    ∧ (exec_adc a f b).2.overflow
        = decide ((((a ^^^ b) ^^^ 255) &&& (a ^^^ (exec_adc a f b).1)) >>> 7 ≠ 0)
    ∧ (exec_adc a f b).2.negative = (exec_adc a f b).1.testBit 7
    ∧ (exec_adc a f b).2.zero = decide ((exec_adc a f b).1 = 0) := by
  have hcn : (if f.carry then 1 else 0) ≤ 1 := by
    cases f.carry <;> simp
  refine ⟨rfl, rfl, ?_, ?_, rfl⟩
  · exact adc_overflow_eq_formula a b (if f.carry then 1 else 0) ha hb hcn
  · show decide (127 < (a + b + (if f.carry then 1 else 0)) % 256)
      = ((a + b + (if f.carry then 1 else 0)) % 256).testBit 7
    rw [testBit7_eq _ (Nat.mod_lt _ (by norm_num))]
    apply decide_eq_decide.mpr
    omega

/-- C9 witness: the claim's concrete scenario A = `$50`, operand = `$50`,
C = 0 gives result `$A0` with N = 1, V = 1, C = 0, Z = 0. -/
theorem C9_adc_flags_witness :
    (exec_adc 0x50 Flags.init 0x50).1 = 0xA0
    ∧ (exec_adc 0x50 Flags.init 0x50).2.negative = true
    ∧ (exec_adc 0x50 Flags.init 0x50).2.overflow = true
    ∧ (exec_adc 0x50 Flags.init 0x50).2.carry = false
    ∧ (exec_adc 0x50 Flags.init 0x50).2.zero = false := by
  obtain ⟨h1, h2, h3, h4, h5⟩ := C9_adc_flags 0x50 0x50 Flags.init (by decide) (by decide)
  exact ⟨h1.trans (by decide), h4.trans (by decide), h3.trans (by decide),
    h2.trans (by decide), h5.trans (by decide)⟩

end Nessy
